import Mathlib

/-!
# Verification of the AI Fitness Coach persistence and chat layer

Shallow embedding of `src/ai_fitness.py`: the SQLite-backed stores
(`user_profile`, `chat_history`, `workout_log`), the profile CRUD
operations, the chat-history operations, the schedule generator, the
chat handler's context-preamble construction and response-persistence
guard, and the BMI helper.

Modelling conventions:
* SQLite `REAL` columns and Python float arithmetic are modelled over `ℚ`.
  Python literals such as `24.9` are binary doubles within `2^-46` of the
  decimal value; every concrete value appearing in a theorem below is far
  from any branch boundary, so the exact-rational model agrees with the
  float execution on all claim-relevant inputs.
* Timestamps (`DATETIME DEFAULT CURRENT_TIMESTAMP`) are modelled as `Nat`
  (seconds); the wall clock is non-decreasing across inserts.
* Each Python DB function opens its own connection and auto-commits, so an
  operation is a pure function `DB → result × DB`.
* The Python `sqlite3` module leaves `PRAGMA foreign_keys` OFF and
  `ai_fitness.py` never enables it, so the `ON DELETE CASCADE` clauses
  declared in `init_db` are **not enforced** at runtime: `DELETE FROM
  user_profile WHERE id = ?` removes only the `user_profile` row. The
  embedding models this executed behaviour.
-/

namespace AIFitness

def GROQ_MODEL : String := "meta-llama/llama-4-maverick-17b-128e-instruct"

/-- A row of `user_profile` (see `init_db`): `id INTEGER PRIMARY KEY
AUTOINCREMENT`, `profile_name TEXT UNIQUE NOT NULL`, the remaining columns
nullable with the defaults shown in the DDL. -/
structure ProfileRow where
  id : Nat
  profile_name : String
  fitness_goal : String := "General Fitness"
  experience_level : String := "Beginner"
  age : Option Int := none
  sex : Option String := none
  height_cm : Option ℚ := none
  weight_kg : Option ℚ := none
  activity_level : Option String := none
  dietary_prefs : Option String := none
  equipment : Option String := none
  profile_notes : Option String := none
deriving Repr, DecidableEq

/-- A row of `chat_history`: `profile_id` references `user_profile(id)`,
`timestamp DATETIME DEFAULT CURRENT_TIMESTAMP`, `role`, `content`. -/
structure ChatRow where
  id : Nat
  profile_id : Nat
  timestamp : Nat
  role : String
  content : String
deriving Repr, DecidableEq

/-- A row of `workout_log`: `log_type`, nullable `notes`, nullable
`weight_kg`. -/
structure LogRow where
  id : Nat
  profile_id : Nat
  timestamp : Nat
  log_type : String
  notes : Option String
  weight_kg : Option ℚ
deriving Repr, DecidableEq

/-- The whole SQLite database `fitness_data.db`. Row lists are kept in
rowid (insertion) order, as a table scan returns them. -/
structure DB where
  user_profile : List ProfileRow
  chat_history : List ChatRow
  workout_log : List LogRow
deriving Repr, DecidableEq

/-- Fresh AUTOINCREMENT id: one more than the largest id present.
(SQLite additionally never reuses ids after deletes via `sqlite_sequence`;
no claim depends on that distinction, so it is not modelled.) -/
def nextId (ids : List Nat) : Nat := ids.foldr max 0 + 1

/-- SQLite BINARY collation: code-point lexicographic comparison. -/
def bytesLt : List Char → List Char → Bool
  | [], [] => false
  | [], _ :: _ => true
  | _ :: _, [] => false
  | a :: as, b :: bs => if a < b then true else if b < a then false else bytesLt as bs

/-- Non-strict BINARY-collation order on TEXT values. -/
def nameLe (a b : String) : Bool := !(bytesLt b.data a.data)

/-- `get_all_profiles`: `SELECT id, profile_name FROM user_profile ORDER BY
profile_name ASC`. Modelled with a stable insertion sort over the
rowid-ordered rows, under the BINARY collation. -/
def get_all_profiles (db : DB) : List (Nat × String) :=
  List.insertionSort (fun a b => nameLe a.2 b.2 = true)
    (db.user_profile.map fun p => (p.id, p.profile_name))

/-- The 10-column result row of `get_profile_details`' SELECT, in SELECT
order. -/
structure ProfileDetails where
  fitness_goal : String
  experience_level : String
  age : Option Int
  sex : Option String
  height_cm : Option ℚ
  weight_kg : Option ℚ
  activity_level : Option String
  dietary_prefs : Option String
  equipment : Option String
  profile_notes : Option String
deriving Repr, DecidableEq

/-- Projection of a `user_profile` row onto the SELECTed columns. -/
def ProfileRow.details (p : ProfileRow) : ProfileDetails :=
  ⟨p.fitness_goal, p.experience_level, p.age, p.sex, p.height_cm,
   p.weight_kg, p.activity_level, p.dietary_prefs, p.equipment,
   p.profile_notes⟩

/-- The all-defaults tuple returned by `get_profile_details` when no row
matches: `('General Fitness', 'Beginner', None, ..., None)`. -/
def defaultDetails : ProfileDetails :=
  ⟨"General Fitness", "Beginner", none, none, none, none, none, none, none, none⟩

/-- `get_profile_details(profile_id)`: fetch the row with the given id
(`id` is the primary key, so at most one matches); if `fetchone` returns
nothing, return the all-defaults tuple instead of failing. -/
def get_profile_details (db : DB) (profile_id : Nat) : ProfileDetails :=
  match db.user_profile.find? (fun p => p.id == profile_id) with
  | some p => p.details
  | none => defaultDetails

/-- `create_profile(profile_name)`: `INSERT INTO user_profile
(profile_name) VALUES (?)`. The UNIQUE constraint on `profile_name` raises
`sqlite3.IntegrityError` when the name already exists; the handler returns
`None` and the transaction leaves the store unchanged. On success the new
row gets all column defaults and the fresh id is returned. -/
def create_profile (db : DB) (profile_name : String) : Option Nat × DB :=
  if db.user_profile.any (fun p => p.profile_name == profile_name) then
    (none, db)
  else
    let new_id := nextId (db.user_profile.map (·.id))
    (some new_id,
     { db with user_profile := db.user_profile ++ [{ id := new_id, profile_name }] })

/-- `delete_profile(profile_id)`: refuse when `len(get_all_profiles()) <= 1`
(`st.error("Cannot delete the last profile.")`, return `False`); otherwise
run `DELETE FROM user_profile WHERE id = ?` and return `True`. Because the
connection never enables `PRAGMA foreign_keys`, the declared `ON DELETE
CASCADE` does not fire: only the `user_profile` row is removed, and
`chat_history` / `workout_log` rows keep their `profile_id` values. -/
def delete_profile (db : DB) (profile_id : Nat) : Bool × DB :=
  let profiles := get_all_profiles db
  if profiles.length ≤ 1 then
    (false, db)
  else
    (true, { db with user_profile := db.user_profile.filter (fun p => ¬ p.id == profile_id) })

/-- `load_chat_history(profile_id)`: `SELECT role, content FROM
chat_history WHERE profile_id = ? ORDER BY timestamp ASC`, returned as
`{role, content}` pairs. Ties in `timestamp` (1-second resolution) come
back in rowid order from the table scan, modelled by a stable insertion
sort over the insertion-ordered rows. -/
def load_chat_history (db : DB) (profile_id : Nat) : List (String × String) :=
  (List.insertionSort (fun a b => a.timestamp ≤ b.timestamp)
    (db.chat_history.filter (fun r => r.profile_id == profile_id))).map
    (fun r => (r.role, r.content))

/-- The `chat_history` row inserted by `save_chat_message`: fresh id,
`CURRENT_TIMESTAMP` passed as `now`. -/
def savedRow (db : DB) (profile_id : Nat) (role content : String)
    (now : Nat) : ChatRow :=
  { id := nextId (db.chat_history.map (fun r => r.id)), profile_id,
    timestamp := now, role, content }

/-- `save_chat_message(profile_id, role, content)`: `INSERT INTO
chat_history (profile_id, role, content) VALUES (?, ?, ?)`; `timestamp`
takes `CURRENT_TIMESTAMP`, passed here as `now`. Returns `True` on
success (the best-effort failure path is a storage exception, which has no
source in this model). -/
def save_chat_message (db : DB) (profile_id : Nat) (role content : String)
    (now : Nat) : Bool × DB :=
  (true,
   { db with chat_history := db.chat_history ++
       [savedRow db profile_id role content now] })

/-- `clear_profile_history(profile_id)`: `DELETE FROM chat_history WHERE
profile_id = ?`. -/
def clear_profile_history (db : DB) (profile_id : Nat) : Bool × DB :=
  (true,
   { db with chat_history := db.chat_history.filter (fun r => ¬ r.profile_id == profile_id) })

/-- `log_entry(profile_id, log_type, notes, weight_kg)`: `INSERT INTO
workout_log (profile_id, log_type, notes, weight_kg) VALUES (?, ?, ?, ?)`. -/
def log_entry (db : DB) (profile_id : Nat) (log_type : String)
    (notes : Option String) (weight_kg : Option ℚ) (now : Nat) : Bool × DB :=
  (true,
   { db with workout_log := db.workout_log ++
       [{ id := nextId (db.workout_log.map (·.id)), profile_id,
          timestamp := now, log_type, notes, weight_kg }] })

/-! ## Chat handler: context preamble, submit step, persistence guard -/

/-- Python truthiness of a nullable TEXT column value: `None` and `""` are
falsy. -/
def truthyStr : Option String → Bool
  | none => false
  | some s => !(s == "")

/-- Python truthiness of a nullable INTEGER column value: `None` and `0` are
falsy. -/
def truthyInt : Option Int → Bool
  | none => false
  | some a => !(a == 0)

/-- Python truthiness of a nullable REAL column value: `None` and `0.0` are
falsy. -/
def truthyReal : Option ℚ → Bool
  | none => false
  | some x => !(x == 0)

/-- Rendering of a REAL column value inside an f-string. Python prints the
shortest round-tripping decimal of the binary double (e.g. `175.0`); no
claim evaluates a context entry or prompt line for a set REAL field, so
this rendering is kept as a fixed function of the rational value. -/
def renderReal (x : ℚ) : String := toString x

/-- `context_parts`: starts with the Goal and Experience entries, then each
optional attribute appends one entry only when truthy, in source order. -/
def context_parts (d : ProfileDetails) : List String :=
  let parts := ["Goal: " ++ d.fitness_goal, "Experience: " ++ d.experience_level]
  let parts := if truthyInt d.age then parts ++ ["Age: " ++ toString (d.age.getD 0)] else parts
  let parts := if truthyStr d.sex then parts ++ ["Sex: " ++ d.sex.getD ""] else parts
  let parts := if truthyReal d.height_cm then parts ++ ["Height: " ++ renderReal (d.height_cm.getD 0) ++ " cm"] else parts
  let parts := if truthyReal d.weight_kg then parts ++ ["Weight: " ++ renderReal (d.weight_kg.getD 0) ++ " kg"] else parts
  let parts := if truthyStr d.activity_level then parts ++ ["Activity Level: " ++ d.activity_level.getD ""] else parts
  let parts := if truthyStr d.dietary_prefs then parts ++ ["Dietary Notes: " ++ d.dietary_prefs.getD ""] else parts
  let parts := if truthyStr d.equipment then parts ++ ["Equipment: " ++ d.equipment.getD ""] else parts
  let parts := if truthyStr d.profile_notes then parts ++ ["General Notes: " ++ d.profile_notes.getD ""] else parts
  parts

/-- Python `sep.join(parts)`: the parts concatenated with `sep` between
consecutive parts, no leading or trailing separator. -/
def joinSep (sep : String) : List String → String
  | [] => ""
  | [a] => a
  | a :: as => a ++ sep ++ joinSep sep as

/-- `context_string = "; ".join(context_parts)`. -/
def context_string (d : ProfileDetails) : String :=
  joinSep "; " (context_parts d)

/-- `contextual_prompt = f"(My Profile: {context_string})\\n\\n{prompt}"`.
The source writes an escaped backslash before each `n` inside the
f-string, so the separator is the four literal characters backslash, n,
backslash, n — not two newlines; modelled verbatim. -/
def contextual_prompt (d : ProfileDetails) (prompt : String) : String :=
  "(My Profile: " ++ context_string d ++ ")\\n\\n" ++ prompt

/-- The submit step of the chat handler (the `if prompt := st.chat_input`
block up to the API call): the raw prompt is saved as the user turn first;
the profile is then re-fetched and the contextual prompt is built for the
outbound API message list only. Returns the updated DB and the content of
the outbound user message. -/
def chat_submit (db : DB) (profile_id : Nat) (prompt : String) (now : Nat) :
    DB × String :=
  let db1 := (save_chat_message db profile_id "user" prompt now).2
  let d := get_profile_details db1 profile_id
  (db1, contextual_prompt d prompt)

/-- Python `s.startswith(pre)`. -/
def startswith (s pre : String) : Bool := pre.data.isPrefixOf s.data

/-- The text substituted for `full_response` when the streaming completion
raises `GroqError` (`e.message` passed in). -/
def groq_error_fallback (message : String) : String :=
  "Sorry, I encountered an API error. Please check the console or logs for details: " ++ message

/-- The text substituted for `full_response` when the streaming completion
raises any exception other than `GroqError` (`str(e)` passed in). -/
def unexpected_error_fallback (e : String) : String :=
  "Sorry, an unexpected error occurred: " ++ e

/-- Python `s.strip()`: drop whitespace at both ends. (Python also strips
a few exotic whitespace characters beyond `Char.isWhitespace`; no
claim-relevant text holds any of them.) -/
def pyStrip (s : String) : String :=
  ⟨((s.data.dropWhile Char.isWhitespace).reverse.dropWhile
      Char.isWhitespace).reverse⟩

/-- The persistence guard of the finalize step:
`if full_response and full_response.strip() and not
full_response.startswith("Sorry, I encountered an")`. -/
def persistGuard (full_response : String) : Bool :=
  !(full_response == "") && !(pyStrip full_response == "") &&
    !(startswith full_response "Sorry, I encountered an")

/-- The finalize step of the chat handler: persist `full_response` as an
assistant turn iff the guard passes; the `elif` branch only logs. -/
def finalize_response (db : DB) (profile_id : Nat) (full_response : String)
    (now : Nat) : DB :=
  if persistGuard full_response then
    (save_chat_message db profile_id "assistant" full_response now).2
  else db

/-! ## Schedule generator -/

/-- One `{role, content}` entry of an outbound API message list. -/
structure Message where
  role : String
  content : String
deriving Repr, DecidableEq

/-- The argument record of `client.chat.completions.create`. -/
structure CompletionRequest where
  model : String
  messages : List Message
  temperature : ℚ
  max_tokens : Nat
  top_p : Nat
  stream : Bool
deriving Repr, DecidableEq

/-- Python `{v if v else dflt}` for a nullable TEXT value. -/
def orElseStr (v : Option String) (dflt : String) : String :=
  match v with
  | some s => if s == "" then dflt else s
  | none => dflt

/-- Python `{v if v else dflt}` for a nullable INTEGER value. -/
def orElseInt (v : Option Int) (dflt : String) : String :=
  match v with
  | some a => if a == 0 then dflt else toString a
  | none => dflt

/-- The `schedule_prompt` f-string of `generate_and_save_schedule`,
transcribed verbatim: the triple-quoted literal keeps the 8-space
indentation of its continuation lines and ends with a newline and 8
spaces before the closing quotes. -/
def schedule_prompt (d : ProfileDetails) : String :=
  "Create a detailed 4-week fitness schedule tailored for a user with the following profile:\n" ++
  "        - Goal: " ++ d.fitness_goal ++ "\n" ++
  "        - Experience Level: " ++ d.experience_level ++ "\n" ++
  "        - Age: " ++ orElseInt d.age "Not specified" ++ "\n" ++
  "        - Sex: " ++ orElseStr d.sex "Not specified" ++ "\n" ++
  "        - Activity Level: " ++ orElseStr d.activity_level "Not specified" ++ "\n" ++
  "        - Available Equipment: " ++ orElseStr d.equipment "Basic bodyweight/home equipment" ++ "\n" ++
  "        - General Notes: " ++ orElseStr d.profile_notes "None" ++ "\n" ++
  "\n" ++
  "        **IMPORTANT:** Structure the output using Markdown. Use level 2 headings (##) for each week (e.g., `## Week 1`). Use level 3 headings (###) for each day within the week (e.g., `### Monday - Workout A`, `### Tuesday - Rest`). Use bullet points for exercises, sets, reps, and rest periods. Include brief 'Warm-up' and 'Cool-down' sections for workout days. Ensure the plan aligns with the user's goal and experience level.\n" ++
  "        "

/-- The single completion request issued by `generate_and_save_schedule`:
non-streaming, temperature 0.7, `max_tokens=2000`, `top_p=1`. -/
def schedule_request (d : ProfileDetails) : CompletionRequest :=
  { model := GROQ_MODEL
    messages :=
      [⟨"system", "You are a helpful assistant that creates fitness schedules formatted in Markdown."⟩,
       ⟨"user", schedule_prompt d⟩]
    temperature := 7/10
    max_tokens := 2000
    top_p := 1
    stream := false }

/-- The stored schedule message: the lead-in sentence, then the raw model
output bracketed by the two sentinel lines. -/
def schedule_message (schedule_content : String) : String :=
  "**📅 Here is a sample 4-week schedule based on your profile:**\n" ++
  "[SCHEDULE_START]\n" ++ schedule_content ++ "\n[SCHEDULE_END]"

/-- One run of `generate_and_save_schedule(profile_id)`, with the external
effects supplied as parameters: `clientInit` is whether the cached Groq
client is initialized, `api` is the outcome of the completion call
(`none` = `GroqError` raised, `some c` = response content `c`), `saveOk`
is whether the INSERT inside `save_chat_message` succeeds. Returns
(result, completion requests issued, updated DB). The
`if not details: return False` branch is dead code — `get_profile_details`
always returns a non-empty (truthy) 10-tuple — and is omitted. On any
failure path the function returns `False` and the store is unchanged. -/
def generate_and_save_schedule (db : DB) (profile_id : Nat)
    (clientInit : Bool) (api : Option String) (saveOk : Bool) (now : Nat) :
    Bool × List CompletionRequest × DB :=
  let details := get_profile_details db profile_id
  if !clientInit then
    (false, [], db)
  else
    let req := schedule_request details
    match api with
    | none => (false, [req], db)
    | some schedule_content =>
      if saveOk then
        (true, [req],
         (save_chat_message db profile_id "assistant"
           (schedule_message schedule_content) now).2)
      else
        (false, [req], db)

/-! ## BMI helper -/

/-- Python `round(x, 1)`: round half to even at one decimal place. -/
def pyRound1 (x : ℚ) : ℚ :=
  let y : ℚ := 10 * x
  let n : ℤ := ⌊y⌋
  let r : ℤ :=
    if y - (n : ℚ) < 1/2 then n
    else if (1:ℚ)/2 < y - (n : ℚ) then n + 1
    else if 2 ∣ n then n else n + 1
  (r : ℚ) / 10

/-- `calculate_bmi(weight_kg, height_cm)`. The Python guard
`not weight_kg or not height_cm or height_cm <= 0 or weight_kg <= 0`
(0 and 0.0 are falsy) rejects before the division; otherwise
`bmi = weight_kg / (height_cm/100)**2`, the category is chosen from the
**unrounded** value with the branch bounds 18.5 / 24.9 / 25 / 29.9, and
the rounded value is returned. -/
def calculate_bmi (weight_kg height_cm : ℚ) : Option ℚ × String :=
  if weight_kg = 0 ∨ height_cm = 0 ∨ height_cm ≤ 0 ∨ weight_kg ≤ 0 then
    (none, "Enter valid height and weight")
  else
    let height_m := height_cm / 100
    let bmi := weight_kg / height_m ^ 2
    let category :=
      if bmi < 37/2 then "Underweight"
      else if 37/2 ≤ bmi ∧ bmi < 249/10 then "Normal weight"
      else if 25 ≤ bmi ∧ bmi < 299/10 then "Overweight"
      else "Obesity"
    (some (pyRound1 bmi), category)

/-! ## Helper lemmas -/

/-- Inserting `a` into `m ++ [x]` keeps `x` last when `r a x` holds. -/
theorem orderedInsert_append_singleton {α : Type} (r : α → α → Prop)
    [DecidableRel r] (a x : α) (m : List α) (hax : r a x) :
    List.orderedInsert r a (m ++ [x]) = List.orderedInsert r a m ++ [x] := by
  induction m with
  | nil => simp [List.orderedInsert, hax]
  | cons z zs ih =>
      by_cases h : r a z
      · simp [List.orderedInsert, h]
      · simp [List.orderedInsert, h, ih]

/-- A stable insertion sort keeps a maximal last element last. -/
theorem insertionSort_append_singleton {α : Type} (r : α → α → Prop)
    [DecidableRel r] (x : α) (l : List α) (h : ∀ y ∈ l, r y x) :
    List.insertionSort r (l ++ [x]) = List.insertionSort r l ++ [x] := by
  induction l with
  | nil => simp [List.insertionSort, List.orderedInsert]
  | cons a as ih =>
      rw [List.cons_append, List.insertionSort, List.insertionSort,
          ih (fun y hy => h y (List.mem_cons_of_mem a hy)),
          orderedInsert_append_singleton r a x _ (h a (List.mem_cons_self a as))]

/-- Sorting for `ORDER BY profile_name` does not change the row count. -/
theorem length_get_all_profiles (db : DB) :
    (get_all_profiles db).length = db.user_profile.length := by
  unfold get_all_profiles
  rw [List.length_insertionSort, List.length_map]

/-! ## Concrete stores used by closed theorems -/

/-- A store holding only the seeded Default profile and no turns or logs. -/
def oneProfileDB : DB :=
  { user_profile := [{ id := 1, profile_name := "Default" }],
    chat_history := [], workout_log := [] }

/-- Two profiles; profile 1 owns one chat turn and one log entry. -/
def cascadeDB : DB :=
  { user_profile := [{ id := 1, profile_name := "Default" },
                     { id := 2, profile_name := "Other" }],
    chat_history := [{ id := 1, profile_id := 1, timestamp := 0,
                       role := "user", content := "hello" }],
    workout_log := [{ id := 1, profile_id := 1, timestamp := 0,
                      log_type := "Note", notes := some "felt good",
                      weight_kg := none }] }

/-! ## Claims -/

/-- C9: `calculate_bmi 70 175` returns `(22.9, "Normal weight")`, and for
every weight, height 0 is rejected up front with the invalid-input
message — the division is never reached. -/
theorem C9_bmi_example_and_zero_height :
    calculate_bmi 70 175 = (some (229/10), "Normal weight") ∧
    ∀ w : ℚ, calculate_bmi w 0 = (none, "Enter valid height and weight") := by
  constructor
  · simp only [calculate_bmi]
    rw [if_neg (by norm_num),
        show (70:ℚ) / ((175:ℚ)/100)^2 = 1120/49 from by norm_num,
        if_neg (by norm_num), if_pos (by norm_num)]
    have hfl : ⌊(10:ℚ) * (1120/49)⌋ = 228 := by
      rw [Int.floor_eq_iff]
      constructor <;> norm_num
    simp only [pyRound1, hfl]
    rw [if_neg (by norm_num), if_pos (by norm_num)]
    norm_num
  · intro w
    simp [calculate_bmi]

/-- C10: the category intervals are not contiguous: an unrounded BMI in
[24.9, 25) or in [29.9, 30) fails the Normal (18.5 ≤ bmi < 24.9) and
Overweight (25 ≤ bmi < 29.9) conditions and falls through to "Obesity". -/
theorem C10_bmi_gap_obesity (w h : ℚ) (hw : 0 < w) (hh : 0 < h)
    (hgap : (249/10 ≤ w / (h/100)^2 ∧ w / (h/100)^2 < 25) ∨
            (299/10 ≤ w / (h/100)^2 ∧ w / (h/100)^2 < 30)) :
    (calculate_bmi w h).2 = "Obesity" := by
  have hcond : ¬(w = 0 ∨ h = 0 ∨ h ≤ 0 ∨ w ≤ 0) := by
    push_neg
    exact ⟨ne_of_gt hw, ne_of_gt hh, hh, hw⟩
  simp only [calculate_bmi, if_neg hcond]
  rcases hgap with ⟨h1, h2⟩ | ⟨h1, h2⟩ <;>
    rw [if_neg (by intro hlt; nlinarith), if_neg (by rintro ⟨-, hlt⟩; nlinarith),
        if_neg (by rintro ⟨hge, hlt⟩; nlinarith)]

/-- Witness for C10 at weight 24.97 kg, height 100 cm (BMI exactly 24.97). -/
theorem C10_bmi_gap_obesity_witness :
    (0:ℚ) < 2497/100 ∧ (0:ℚ) < 100 ∧
    (calculate_bmi (2497/100) 100).2 = "Obesity" :=
  ⟨by norm_num, by norm_num,
   C10_bmi_gap_obesity (2497/100) 100 (by norm_num) (by norm_num)
     (Or.inl ⟨by norm_num, by norm_num⟩)⟩

/-- C6: `get_profile_details` is total by construction; when no row has the
requested id it returns the all-defaults tuple rather than an error. -/
theorem C6_get_profile_details_missing_id (db : DB) (profile_id : Nat)
    (h : db.user_profile.find? (fun p => p.id == profile_id) = none) :
    get_profile_details db profile_id =
      ⟨"General Fitness", "Beginner", none, none, none, none, none, none, none, none⟩ := by
  simp [get_profile_details, h, defaultDetails]

/-- Witness for C6: an empty store has no profile 7. -/
theorem C6_get_profile_details_missing_id_witness :
    (DB.mk [] [] []).user_profile.find? (fun p => p.id == 7) = none ∧
    get_profile_details (DB.mk [] [] []) 7 =
      ⟨"General Fitness", "Beginner", none, none, none, none, none, none, none, none⟩ :=
  ⟨rfl, C6_get_profile_details_missing_id (DB.mk [] [] []) 7 rfl⟩

/-- C8: creating a profile under a name that already exists hits the
UNIQUE constraint: the result is the duplicate-name failure `None` and the
store — in particular the profile count — is unchanged. -/
theorem C8_create_profile_duplicate (db : DB) (name : String)
    (h : db.user_profile.any (fun p => p.profile_name == name) = true) :
    create_profile db name = (none, db) ∧
    (create_profile db name).2.user_profile.length = db.user_profile.length := by
  constructor <;> simp [create_profile, h]

/-- Witness for C8: "Default" already exists in `oneProfileDB`. -/
theorem C8_create_profile_duplicate_witness :
    oneProfileDB.user_profile.any (fun p => p.profile_name == "Default") = true ∧
    create_profile oneProfileDB "Default" = (none, oneProfileDB) :=
  ⟨by decide, (C8_create_profile_duplicate oneProfileDB "Default" (by decide)).1⟩

/-- C3: with exactly one profile in the store, `delete_profile` returns
False and the whole database — profiles, chat turns and log entries — is
unchanged. -/
theorem C3_delete_last_profile_fails (db : DB) (profile_id : Nat)
    (h : db.user_profile.length = 1) :
    delete_profile db profile_id = (false, db) := by
  unfold delete_profile
  rw [if_pos (show (get_all_profiles db).length ≤ 1 by
        rw [length_get_all_profiles, h])]

/-- Witness for C3: deleting the sole Default profile fails. -/
theorem C3_delete_last_profile_fails_witness :
    oneProfileDB.user_profile.length = 1 ∧
    delete_profile oneProfileDB 1 = (false, oneProfileDB) :=
  ⟨rfl, C3_delete_last_profile_fails oneProfileDB 1 rfl⟩

/-- C2 (code bug): deleting profile 1 from `cascadeDB` returns True and
removes its `user_profile` row, but the chat turn and the log entry with
`profile_id = 1` are still present afterwards: `PRAGMA foreign_keys` is
never enabled on the per-operation connections, so the declared
`ON DELETE CASCADE` never fires. -/
theorem C2_delete_profile_does_not_cascade :
    delete_profile cascadeDB 1 =
      (true,
       { user_profile := [{ id := 2, profile_name := "Other" }],
         chat_history := cascadeDB.chat_history,
         workout_log := cascadeDB.workout_log }) ∧
    ((delete_profile cascadeDB 1).2.chat_history.filter
        (fun r => r.profile_id == 1)).length = 1 ∧
    ((delete_profile cascadeDB 1).2.workout_log.filter
        (fun r => r.profile_id == 1)).length = 1 := by
  refine ⟨?_, by decide, by decide⟩
  decide

/-- If-length helper for counting context entries. -/
theorem length_append_if (b : Bool) (parts : List String) (s : String) :
    (if b then parts ++ [s] else parts).length = parts.length + cond b 1 0 := by
  cases b <;> simp

/-- C1 (counterexample): when the streaming completion raises a
non-GroqError exception, the substituted fallback text does not carry the
guarded prefix, passes the persistence guard, and is written to
`chat_history` — so a completion failure can change persisted history. -/
theorem C1_unexpected_error_fallback_persisted :
    persistGuard (unexpected_error_fallback "division by zero") = true ∧
    (finalize_response oneProfileDB 1
        (unexpected_error_fallback "division by zero") 5).chat_history =
      [{ id := 1, profile_id := 1, timestamp := 5, role := "assistant",
         content := "Sorry, an unexpected error occurred: division by zero" }] := by
  constructor <;> decide

/-- C1 (amended): a response is persisted as an assistant turn iff the
guard passes; an empty or whitespace-only response is not persisted, and
the GroqError fallback text always begins with the guarded prefix
"Sorry, I encountered an" and so is never persisted — an API-error
(GroqError) failure leaves the store unchanged. (The generic-exception
fallback lacks the prefix and is persisted; see the counterexample.) -/
theorem C1_persistence_guard (db : DB) (profile_id : Nat) (now : Nat) :
    (∀ resp, persistGuard resp = true →
      (finalize_response db profile_id resp now).chat_history.map
          (fun r => (r.role, r.content)) =
        db.chat_history.map (fun r => (r.role, r.content)) ++ [("assistant", resp)]) ∧
    (∀ resp, pyStrip resp = "" → finalize_response db profile_id resp now = db) ∧
    (∀ message,
      startswith (groq_error_fallback message) "Sorry, I encountered an" = true ∧
      finalize_response db profile_id (groq_error_fallback message) now = db) := by
  refine ⟨?_, ?_, ?_⟩
  · intro resp h
    simp [finalize_response, h, save_chat_message, savedRow]
  · intro resp h
    have hg : persistGuard resp = false := by
      simp [persistGuard, h]
    simp [finalize_response, hg]
  · intro message
    have hsplit : groq_error_fallback message =
        "Sorry, I encountered an" ++
          (" API error. Please check the console or logs for details: " ++ message) := by
      unfold groq_error_fallback
      rw [show ("Sorry, I encountered an API error. Please check the console or logs for details: " : String) =
            "Sorry, I encountered an" ++ " API error. Please check the console or logs for details: " from rfl,
          String.append_assoc]
    have hpre : startswith (groq_error_fallback message) "Sorry, I encountered an" = true := by
      rw [hsplit]
      unfold startswith
      rw [String.data_append]
      exact List.isPrefixOf_iff_prefix.mpr (List.prefix_append _ _)
    have hg : persistGuard (groq_error_fallback message) = false := by
      simp [persistGuard, hpre]
    exact ⟨hpre, by simp [finalize_response, hg]⟩

/-- Witness for C1 at concrete inputs: a normal reply is persisted; a
whitespace-only reply and the GroqError fallback text are not. -/
theorem C1_persistence_guard_witness :
    persistGuard "Sounds good!" = true ∧
    (finalize_response oneProfileDB 1 "Sounds good!" 3).chat_history.map
        (fun r => (r.role, r.content)) =
      oneProfileDB.chat_history.map (fun r => (r.role, r.content)) ++
        [("assistant", "Sounds good!")] ∧
    pyStrip "   " = "" ∧
    finalize_response oneProfileDB 1 "   " 3 = oneProfileDB ∧
    finalize_response oneProfileDB 1 (groq_error_fallback "rate limited") 3 = oneProfileDB :=
  ⟨by decide,
   (C1_persistence_guard oneProfileDB 1 3).1 "Sounds good!" (by decide),
   by decide,
   (C1_persistence_guard oneProfileDB 1 3).2.1 "   " (by decide),
   ((C1_persistence_guard oneProfileDB 1 3).2.2 "rate limited").2⟩

/-- C4: the context preamble always lists Goal and Experience, adds one
entry per set (truthy) optional attribute — so, with all optional fields
unset, it is exactly the two mandatory entries joined by "; " with no
dangling separator — and the persisted user turn is the raw prompt while
the outbound message is the strictly longer contextualized prompt. -/
theorem C4_context_preamble_and_user_turn (db : DB) (profile_id : Nat)
    (prompt : String) (now : Nat) (g e : String) (d : ProfileDetails) :
    context_string ⟨"Lose fat", "Beginner", none, none, none, none, none, none, none, none⟩ =
      "Goal: Lose fat; Experience: Beginner" ∧
    context_string ⟨g, e, none, none, none, none, none, none, none, none⟩ =
      "Goal: " ++ g ++ "; " ++ "Experience: " ++ e ∧
    (context_parts d).length =
      2 + cond (truthyInt d.age) 1 0 + cond (truthyStr d.sex) 1 0 +
        cond (truthyReal d.height_cm) 1 0 + cond (truthyReal d.weight_kg) 1 0 +
        cond (truthyStr d.activity_level) 1 0 + cond (truthyStr d.dietary_prefs) 1 0 +
        cond (truthyStr d.equipment) 1 0 + cond (truthyStr d.profile_notes) 1 0 ∧
    (chat_submit db profile_id prompt now).1.chat_history.map
        (fun r => (r.role, r.content)) =
      db.chat_history.map (fun r => (r.role, r.content)) ++ [("user", prompt)] ∧
    (chat_submit db profile_id prompt now).2 ≠ prompt := by
  refine ⟨by decide, ?_, ?_, ?_, ?_⟩
  · simp [context_string, context_parts, truthyInt, truthyStr, truthyReal, joinSep,
      String.append_assoc]
    rw [show ("; Experience: " : String) = "; " ++ "Experience: " from rfl,
        String.append_assoc]
  · simp only [context_parts, length_append_if, List.length_cons, List.length_nil]
  · simp [chat_submit, save_chat_message, savedRow]
  · intro hEq
    have h2 := congrArg (fun s => s.data.length) hEq
    have h1 : ("(My Profile: " : String).data.length = 13 := by decide
    simp only [chat_submit, contextual_prompt, String.data_append,
      List.length_append, h1] at h2
    omega

/-- C5: with the client initialized, the completion call returning content
`resp`, and the save succeeding, schedule generation issues exactly one
completion request — non-streaming, temperature 0.7, 2000-token cap —
returns success, and appends exactly one assistant turn whose content is
the lead-in sentence followed by [SCHEDULE_START], exactly `resp`, and
[SCHEDULE_END]; the other tables are untouched. -/
theorem C5_schedule_generation (db : DB) (profile_id : Nat) (resp : String)
    (now : Nat) :
    (generate_and_save_schedule db profile_id true (some resp) true now).1 = true ∧
    (generate_and_save_schedule db profile_id true (some resp) true now).2.1 =
      [schedule_request (get_profile_details db profile_id)] ∧
    (∀ req ∈ (generate_and_save_schedule db profile_id true (some resp) true now).2.1,
      req.stream = false ∧ req.temperature = 7/10 ∧ req.max_tokens = 2000) ∧
    (generate_and_save_schedule db profile_id true (some resp) true now).2.2.chat_history.map
        (fun r => (r.role, r.content)) =
      db.chat_history.map (fun r => (r.role, r.content)) ++
        [("assistant",
          "**📅 Here is a sample 4-week schedule based on your profile:**\n[SCHEDULE_START]\n" ++
            resp ++ "\n[SCHEDULE_END]")] ∧
    (generate_and_save_schedule db profile_id true (some resp) true now).2.2.user_profile =
      db.user_profile ∧
    (generate_and_save_schedule db profile_id true (some resp) true now).2.2.workout_log =
      db.workout_log := by
  have hreqs : (generate_and_save_schedule db profile_id true (some resp) true now).2.1 =
      [schedule_request (get_profile_details db profile_id)] := rfl
  refine ⟨rfl, hreqs, ?_, ?_, rfl, rfl⟩
  · rw [hreqs]
    intro req hreq
    rw [List.mem_singleton] at hreq
    subst hreq
    exact ⟨rfl, rfl, rfl⟩
  · have hmsg : schedule_message resp =
        "**📅 Here is a sample 4-week schedule based on your profile:**\n[SCHEDULE_START]\n" ++
          resp ++ "\n[SCHEDULE_END]" := by
      rfl
    have hdb : (generate_and_save_schedule db profile_id true (some resp) true now).2.2 =
        (save_chat_message db profile_id "assistant" (schedule_message resp) now).2 := rfl
    rw [hdb]
    simp [save_chat_message, savedRow, hmsg]

/-- C7: appending a user turn at the current time (no earlier turn of the
profile carries a later timestamp) makes it the last element of the
reloaded, timestamp-ascending history. -/
theorem C7_append_then_load_last (db : DB) (p : Nat) (now : Nat)
    (h : ∀ r ∈ db.chat_history, r.profile_id = p → r.timestamp ≤ now) :
    (load_chat_history (save_chat_message db p "user" "hello" now).2 p).getLast? =
      some ("user", "hello") := by
  unfold load_chat_history
  have hchat : (save_chat_message db p "user" "hello" now).2.chat_history =
      db.chat_history ++ [savedRow db p "user" "hello" now] := rfl
  rw [hchat, List.filter_append]
  have hfil : List.filter (fun r => r.profile_id == p)
      [savedRow db p "user" "hello" now] = [savedRow db p "user" "hello" now] := by
    simp [savedRow, List.filter]
  rw [hfil]
  have hle : ∀ y ∈ List.filter (fun r => r.profile_id == p) db.chat_history,
      y.timestamp ≤ (savedRow db p "user" "hello" now).timestamp := by
    intro y hy
    rcases List.mem_filter.mp hy with ⟨hmem, hq⟩
    simpa [savedRow] using h y hmem (by simpa using hq)
  rw [insertionSort_append_singleton (fun a b : ChatRow => a.timestamp ≤ b.timestamp)
        _ _ hle,
      List.map_append]
  simp [savedRow, List.getLast?_concat]

/-- Store for the C7 witness: one earlier assistant turn at time 5. -/
def chatWitnessDB : DB :=
  { user_profile := [{ id := 1, profile_name := "Default" }],
    chat_history := [{ id := 1, profile_id := 1, timestamp := 5,
                       role := "assistant", content := "Welcome!" }],
    workout_log := [] }

/-- Witness for C7: append "hello" at time 10 over the store above. -/
theorem C7_append_then_load_last_witness :
    (∀ r ∈ chatWitnessDB.chat_history, r.profile_id = 1 → r.timestamp ≤ 10) ∧
    (load_chat_history (save_chat_message chatWitnessDB 1 "user" "hello" 10).2 1).getLast? =
      some ("user", "hello") :=
  ⟨by decide, C7_append_then_load_last chatWitnessDB 1 10 (by decide)⟩

end AIFitness
